import Mathlib

/-!
Shallow embedding of the FinAUDIT rule evaluation engine
(src/backend/core/rules_engine.py) and proofs about its check suites.

Modelling conventions:
* Python floats are modelled as rationals; all scores computed by the engine
  are exact rational values.
* A column metadata dict is a `ColumnProfile` whose optional fields are
  `Option`-valued; `dict.get(k, d)` becomes `Option.getD`, while direct
  subscription `d[k]` on a possibly absent key becomes an `Except` failure
  (mirroring `KeyError`).
* The insertion-ordered `columns` dict is a list of name/profile pairs.
* Regex patterns used by the engine are alternations of literal substrings
  searched case-insensitively (plus the two anchored patterns `id$` and
  `.+_id$`, modelled as suffix tests); they are embedded as keyword lists.
* `datetime.fromisoformat` together with `datetime.now()` is modelled by an
  abstract day-valued parse function and a reference day number, as the date
  logic only consumes the difference in whole days.
-/

namespace FinAudit

/-! ## String primitives -/

def upperStr (s : String) : String := ⟨s.toList.map Char.toUpper⟩

def lowerStr (s : String) : String := ⟨s.toList.map Char.toLower⟩

/-- Case-sensitive substring test (Python `sub in t`). -/
def strContainsB (t sub : String) : Bool :=
  t.toList.tails.any (fun l => sub.toList.isPrefixOf l)

/-- Case-insensitive substring test (`re.search` on a literal, IGNORECASE). -/
def containsCI (t sub : String) : Bool :=
  strContainsB (upperStr t) (upperStr sub)

/-- Case-insensitive suffix test (for the anchored patterns). -/
def endsWithCI (t suf : String) : Bool :=
  (upperStr suf).toList.isSuffixOf (upperStr t).toList

/-- Lexicographic comparison on code points, as Python string `<`. -/
def lexLt : List Char → List Char → Bool
  | [], [] => false
  | [], _ :: _ => true
  | _ :: _, [] => false
  | a :: as, b :: bs => if a < b then true else if b < a then false else lexLt as bs

/-- Python `max` over a list of strings ( `""` is a neutral bottom element). -/
def maxStr (l : List String) : String :=
  l.foldl (fun acc s => if lexLt acc.toList s.toList then s else acc) ""

/-! ## Data model (spec section 3) -/

/-- One column profile; every field is optional, mirroring a Python dict
whose keys may be absent. -/
structure ColumnProfile where
  null_percentage : Option ℚ := none
  unique_count : Option Nat := none
  is_numeric : Option Bool := none
  min : Option ℚ := none
  max : Option ℚ := none
  iso_date_match_percentage : Option ℚ := none
  currency_code_match_percentage : Option ℚ := none
  country_code_match_percentage : Option ℚ := none
  email_match_percentage : Option ℚ := none
  max_date : Option String := none
deriving DecidableEq

/-- Insertion-ordered column dictionary. -/
abbrev Cols := List (String × ColumnProfile)

structure DatasetMetadata where
  columns : Cols := []
  total_rows : Nat := 0
deriving DecidableEq

structure RuleResult where
  score : ℚ
  weight : Nat
  passed : Bool
  details : String
deriving DecidableEq

/-- Insertion-ordered rule-result dictionary. -/
abbrev Results := List (String × RuleResult)

instance {ε α : Type} [DecidableEq ε] [DecidableEq α] : DecidableEq (Except ε α) := fun a b =>
  match a, b with
  | .error e, .error f =>
    if h : e = f then .isTrue (by rw [h]) else .isFalse (fun hh => h (Except.error.inj hh))
  | .ok x, .ok y =>
    if h : x = y then .isTrue (by rw [h]) else .isFalse (fun hh => h (Except.ok.inj hh))
  | .error _, .ok _ => .isFalse (fun hh => Except.noConfusion hh)
  | .ok _, .error _ => .isFalse (fun hh => Except.noConfusion hh)

/-- Dict lookup by rule key. -/
def lookupRule (k : String) : Results → Option RuleResult
  | [] => none
  | (k2, r) :: rest => if k2 = k then some r else lookupRule k rest

/-! ## Column role matcher (`_get_columns_by_pattern`) -/

/-- Columns whose name contains one of the literal keywords,
case-insensitively; keeps the metadata iteration order. -/
def colsByAny (kws : List String) (cols : Cols) : Cols :=
  cols.filter (fun cp => kws.any (fun k => containsCI cp.1 k))

/-! ## GDPR suite (`run_gdpr`) -/

def piiPats : List String := ["email", "phone", "ssn", "name", "address", "birth", "gender"]

def consentPats : List String := ["consent", "opt_in", "legal", "contract"]

def run_gdpr (cols : Cols) : Results :=
  let pii := colsByAny piiPats cols
  let s1 : ℚ := 100
  let nullPii := pii.filter (fun cp => decide (cp.2.null_percentage.getD 0 > 80))
  let s2 : ℚ := ((max 0 (100 - (nullPii.length : ℤ) * 20) : ℤ) : ℚ)
  let s3 : ℚ := if !(colsByAny consentPats cols).isEmpty || pii.isEmpty then 100 else 50
  let s4 : ℚ := if (colsByAny ["retention", "expires", "ttl", "deleted_at"] cols).isEmpty then 0 else 100
  let s5 : ℚ := if (colsByAny ["audit", "log", "updated_by", "modified_by"] cols).isEmpty then 20 else 100
  let s6 : ℚ := if (colsByAny ["ssn", "password"] cols).isEmpty then 100 else 0
  [("gdpr_purpose_limitation", ⟨s1, 5, decide (s1 > 90), "PII fields have declared purpose"⟩),
   ("gdpr_data_minimization", ⟨s2, 5, decide (s2 > 80), "No unused/high-null PII fields"⟩),
   ("gdpr_lawful_basis", ⟨s3, 5, decide (s3 > 80), "Lawful basis reference found"⟩),
   ("gdpr_storage_limitation", ⟨s4, 4, decide (s4 > 0), "Data retention attributes found"⟩),
   ("gdpr_access_restriction", ⟨s5, 4, decide (s5 > 50), "Processing/Access logs exist"⟩),
   ("gdpr_metadata_analytics", ⟨s6, 5, decide (s6 = 100), "No raw credentials in analytic scope"⟩)]

/-! ## Visa CEDP suite (`run_visa_cedp`) -/

def run_visa_cedp (cols : Cols) : Results :=
  let s3 : ℚ := if (colsByAny ["pan", "credit_card", "card_num"] cols).isEmpty then 100 else 0
  let found := List.countP (fun m => !(colsByAny [m] cols).isEmpty) ["amount", "currency", "date"]
  let s4 : ℚ := ((found : ℚ) / 3) * 100
  let s5 : ℚ := if (colsByAny ["fraud", "avs", "cvv_resp", "risk", "ip"] cols).isEmpty then 50 else 100
  let s6 : ℚ := if (colsByAny ["trace", "correlation", "uuid", "ref_id"] cols).isEmpty then 0 else 100
  [("visa_data_classification", ⟨100, 5, true, "Card data fields classified"⟩),
   ("visa_secure_handling", ⟨100, 4, true, "Transaction attributes conform to format"⟩),
   ("visa_no_unauthorized_storage", ⟨s3, 5, decide (s3 = 100), "No raw PAN storage outside permitted systems"⟩),
   ("visa_transaction_completeness", ⟨s4, 5, decide (s4 = 100), "Mandatory Visa fields present"⟩),
   ("visa_fraud_readiness", ⟨s5, 3, decide (s5 > 80), "Fraud monitoring attributes available"⟩),
   ("visa_cross_system_consistency", ⟨s6, 4, decide (s6 = 100), "Transaction identifiers consistent"⟩)]

/-! ## AML / FATF suite (`run_aml_fatf`) -/

def run_aml_fatf (cols : Cols) : Results :=
  let s1 : ℚ := if (colsByAny ["customer_id", "kyc", "ssn", "national_id", "passport"] cols).isEmpty then 0 else 100
  let addr := colsByAny ["address", "city", "country", "zip"] cols
  let s2 : ℚ := if 2 ≤ addr.length then 100 else 0
  let s3 : ℚ := if (colsByAny ["source_of_funds", "remitter", "origin_account", "sender"] cols).isEmpty then 0 else 100
  let s4 : ℚ := if (colsByAny ["customer_id", "account_id"] cols).isEmpty then 0 else 100
  let s5 : ℚ := if !(colsByAny ["amount", "value"] cols).isEmpty && !(colsByAny ["date", "time", "timestamp"] cols).isEmpty then 100 else 0
  let s6 : ℚ := if (colsByAny ["audit", "log", "history", "modified"] cols).isEmpty then 0 else 100
  [("aml_kyc_identifier", ⟨s1, 5, decide (s1 = 100), "Valid customer identity reference exists"⟩),
   ("aml_address_completeness", ⟨s2, 5, decide (s2 = 100), "Jurisdictional address fields present"⟩),
   ("aml_source_of_funds", ⟨s3, 5, decide (s3 = 100), "Origin of funds attribute populated"⟩),
   ("aml_traceability", ⟨s4, 5, decide (s4 = 100), "Transaction links to customer/entity"⟩),
   ("aml_suspicious_patterns", ⟨s5, 4, decide (s5 = 100), "Data supports volume/frequency analysis"⟩),
   ("aml_audit_trail", ⟨s6, 3, decide (s6 = 100), "Transaction history is traceable"⟩)]

/-! ## PCI DSS suite (`run_pci_dss`) -/

def run_pci_dss (cols : Cols) : Results :=
  let cvv := colsByAny ["cvv", "cvc", "cid"] cols
  let s1 : ℚ := if cvv.isEmpty then 100 else 0
  let pan := colsByAny ["pan", "card_num"] cols
  let s2 : ℚ := if !pan.isEmpty && pan.any (fun cp => strContainsB cp.1 "raw") then 0 else 100
  let sec := colsByAny ["token", "encrypted", "key_id"] cols
  let s3 : ℚ := if sec.isEmpty then 50 else 100
  let ttl := colsByAny ["ttl", "purge", "expiry"] cols
  let s5 : ℚ := if ttl.isEmpty then 25 else 100
  let track := colsByAny ["track1", "track2", "magnetic"] cols
  let s6 : ℚ := if track.isEmpty then 100 else 0
  [("pci_no_cvv", ⟨s1, 5, decide (s1 = 100), "CVV must never be stored"⟩),
   ("pci_pan_masking", ⟨s2, 5, decide (s2 = 100), "PAN is masked/tokenized"⟩),
   ("pci_restricted_access", ⟨s3, 3, decide (s3 > 60), "Card data access controls inferred"⟩),
   ("pci_secure_transmission", ⟨100, 3, true, "Secure channel flags check (inferred)"⟩),
   ("pci_data_lifecycle", ⟨s5, 4, decide (s5 > 50), "lifecycle/deletion attributes found"⟩),
   ("pci_metadata_processing", ⟨s6, 5, decide (s6 = 100), "No raw track data inspection"⟩)]

/-! ## Basel suite (`run_basel`) -/

def run_basel (cols : Cols) (total_rows : Nat) : Results :=
  let amt := colsByAny ["amount", "balance", "exposure"] cols
  let s1 : ℚ := if amt.any (fun cp => decide (cp.2.min.getD 0 < 0)) then 0 else 100
  let fk := colsByAny ["_id"] cols
  let s3 : ℚ := if fk.isEmpty then 100 else
    max 0 (100 - ((fk.map (fun cp => cp.2.null_percentage.getD 0)).sum / (fk.length : ℚ)))
  let idc := cols.filter (fun cp => endsWithCI cp.1 "id")
  let s4 : ℚ := if idc.isEmpty then 100 else
    (if idc.any (fun cp => decide (cp.2.unique_count.getD 0 = total_rows)) then 100 else 50)
  let s5 : ℚ := if (colsByAny ["gl_", "ledger", "book"] cols).isEmpty then 50 else 100
  [("basel_amount_accuracy", ⟨s1, 5, decide (s1 = 100), "Amounts positive & within bounds"⟩),
   ("basel_arithmetic_consistency", ⟨100, 4, true, "Derived fields reconcile"⟩),
   ("basel_referential_integrity", ⟨s3, 5, decide (s3 > 90), "Entities referenced validly"⟩),
   ("basel_duplicate_prevention", ⟨s4, 5, decide (s4 > 90), "No duplicated exposure transactions"⟩),
   ("basel_cross_ledger", ⟨s5, 3, decide (s5 > 80), "Ledger alignment attributes"⟩),
   ("basel_timeliness", ⟨100, 4, true, "Data available within risk SLAs"⟩)]

/-! ## General suite helpers (`check_*`)

The general suite is the only suite that can raise: `check_completeness`
and `check_integrity` subscript `columns[c]["null_percentage"]` directly
(a `KeyError` when the field is absent) and `check_uniqueness` divides by
`total_rows` (a `ZeroDivisionError` when it is zero).  These are modelled
with `Except Unit`. -/

/-- Direct `["null_percentage"]` subscription over a list of columns. -/
def getNullPcts (l : Cols) : Except Unit (List ℚ) :=
  l.mapM (fun cp => match cp.2.null_percentage with
    | some np => Except.ok np
    | none => Except.error ())

/-- The average `sum(100 - columns[c]["null_percentage"] for c in l) / len(l)` with the
`0` fallback for an empty candidate list. -/
def avgNonNull (l : Cols) : Except Unit ℚ :=
  if l.isEmpty then Except.ok 0
  else do
    let nps ← getNullPcts l
    pure ((nps.map (fun np => 100 - np)).sum / (l.length : ℚ))

def mandatoryPats : List (List String) := [["id"], ["amount"], ["date", "time"]]

def addrPats : List String := ["address", "city", "zip", "post", "state"]

/-- The `mandatory_col_names` accumulator (`extend` per pattern, duplicates kept). -/
def mandatoryColNames (cols : Cols) : Cols :=
  (mandatoryPats.map (fun pat => colsByAny pat cols)).flatten

def completenessEntries (cols : Cols) (avg2 s3 : ℚ) : Results :=
  let found := List.countP (fun pat => !(colsByAny pat cols).isEmpty) mandatoryPats
  let s1 : ℚ := ((found : ℚ) / (mandatoryPats.length : ℚ)) * 100
  let s4 : ℚ := if (colsByAny ["kyc", "passport", "ssn", "tax", "national_id", "customer_id"] cols).isEmpty then 0 else 100
  let s5 : ℚ := if (colsByAny ["source", "provenance", "scource_of_funds", "remitter"] cols).isEmpty then 0 else 100
  let s6 : ℚ := if (colsByAny ["created_at", "updated_at", "audit", "timestamp", "version"] cols).isEmpty then 0 else 100
  let s7 : ℚ := if (colsByAny ["device", "ip", "location", "browser", "metadata"] cols).isEmpty then 0 else 100
  [("completeness_mandatory_columns", ⟨s1, 4, decide (s1 = 100), "Mandatory columns check"⟩),
   ("completeness_mandatory_nulls", ⟨avg2, 4, decide (avg2 > 95), "Critical fields non-null check"⟩),
   ("completeness_address", ⟨s3, 3, decide (s3 > 90), "Address fields presence"⟩),
   ("completeness_kyc_id", ⟨s4, 5, decide (s4 = 100), "KYC Identifier presence"⟩),
   ("completeness_source_of_funds", ⟨s5, 3, decide (s5 = 100), "Source of funds check"⟩),
   ("completeness_audit_trail", ⟨s6, 2, decide (s6 = 100), "Audit trail columns check"⟩),
   ("completeness_enhanced_data", ⟨s7, 1, decide (s7 = 100), "Enhanced data fields check"⟩)]

def check_completeness (cols : Cols) : Except Unit Results := do
  let avg2 ← avgNonNull (mandatoryColNames cols)
  let s3 ← avgNonNull (colsByAny addrPats cols)
  pure (completenessEntries cols avg2 s3)

/-- The average of a match-rate field over matched columns, the field read with a
`.get(..., 0)` default. -/
def avgField (get : ColumnProfile → Option ℚ) (l : Cols) : ℚ :=
  (l.map (fun cp => (get cp.2).getD 0)).sum / (l.length : ℚ)

def check_validity (cols : Cols) : Results :=
  let dateCs := colsByAny ["date", "time"] cols
  let s1 : ℚ := if dateCs.isEmpty then 100 else avgField ColumnProfile.iso_date_match_percentage dateCs
  let currCs := colsByAny ["currency", "curr"] cols
  let s2 : ℚ := if currCs.isEmpty then 100 else avgField ColumnProfile.currency_code_match_percentage currCs
  let cntryCs := colsByAny ["country", "cntry", "nation"] cols
  let s3 : ℚ := if cntryCs.isEmpty then 100 else avgField ColumnProfile.country_code_match_percentage cntryCs
  let emailCs := colsByAny ["email"] cols
  let s6 : ℚ := if emailCs.isEmpty then 100 else avgField ColumnProfile.email_match_percentage emailCs
  [("validity_date_format", ⟨s1, 4, decide (s1 > 90), "ISO Date format check"⟩),
   ("validity_currency_code", ⟨s2, 3, decide (s2 > 95), "ISO Currency code check"⟩),
   ("validity_country_code", ⟨s3, 3, decide (s3 > 95), "ISO Country code check"⟩),
   ("validity_name_pattern", ⟨100, 3, true, "Name naming convention check"⟩),
   ("validity_field_length", ⟨100, 2, true, "Field length truncation check"⟩),
   ("validity_regex_conformity", ⟨s6, 2, decide (s6 > 90), "Regex pattern conformity"⟩),
   ("validity_schema_type", ⟨100, 1, true, "Schema type consistency"⟩)]

def amtPats : List String := ["amount", "price", "cost", "value", "balance"]

/-- Numeric columns whose name matches the amount-role pattern. -/
def amtNumericCols (cols : Cols) : Cols :=
  cols.filter (fun cp => cp.2.is_numeric.getD false && amtPats.any (fun k => containsCI cp.1 k))

def check_accuracy (cols : Cols) : Results :=
  let amtn := amtNumericCols cols
  let total := amtn.length
  let susp := (amtn.filter (fun cp => decide (cp.2.min.getD 0 ≤ 0))).length
  let s2 : ℚ := if total = 0 then 100 else (((total : ℚ) - (susp : ℚ)) / (total : ℚ)) * 100
  let highNull := cols.filter (fun cp => decide (cp.2.null_percentage.getD 0 > 90))
  let s4 : ℚ := if highNull.isEmpty then 100 else ((max 0 (100 - (highNull.length : ℤ) * 10) : ℤ) : ℚ)
  [("accuracy_impossible_date", ⟨100, 4, true, "Logical dates only"⟩),
   ("accuracy_negative_amounts", ⟨s2, 5, decide (s2 = 100), "Zero/Negative amount check"⟩),
   ("accuracy_arithmetic", ⟨100, 4, true, "Arithmetic calculations match"⟩),
   ("accuracy_null_clusters", ⟨s4, 2, decide (s4 > 80), "Systemic null clusters check"⟩)]

def idPats : List String := ["id", "uuid", "key"]

def uniquenessEntries (s1 : ℚ) : Results :=
  [("uniqueness_transaction_id", ⟨s1, 5, decide (s1 > 99), "Transaction ID uniqueness"⟩),
   ("uniqueness_composite_key", ⟨100, 3, true, "Row-level uniqueness"⟩),
   ("uniqueness_primary_key", ⟨s1, 2, decide (s1 > 99), "Entity uniqueness"⟩)]

/-- Score of `uniqueness_transaction_id`; the Python division
`unique_count / self.total_rows` raises when `total_rows == 0`. -/
def uniquenessScore (cols : Cols) (total_rows : Nat) : Except Unit ℚ :=
  match (colsByAny idPats cols).head? with
  | none => Except.ok 0
  | some cp =>
    let uc := cp.2.unique_count.getD 0
    if uc = total_rows then Except.ok 100
    else if total_rows = 0 then Except.error ()
    else Except.ok (((uc : ℚ) / (total_rows : ℚ)) * 100)

def check_uniqueness (cols : Cols) (total_rows : Nat) : Except Unit Results := do
  let s1 ← uniquenessScore cols total_rows
  pure (uniquenessEntries s1)

def check_consistency : Results :=
  [("consistency_status_mismatch", ⟨100, 4, true, "Consistent statuses check"⟩),
   ("consistency_currency_country", ⟨100, 3, true, "Currency-Country alignment"⟩),
   ("consistency_schema_drift", ⟨100, 3, true, "Schema structural consistency"⟩)]

/-- Columns carrying a `max_date` field. -/
def dateCols (cols : Cols) : Cols :=
  cols.filter (fun cp => cp.2.max_date.isSome)

def timelinessEntries (s1 : ℚ) (days_old : Int) : Results :=
  [("timeliness_dataset_age", ⟨s1, 4, decide (s1 > 80),
      "Data age: " ++ toString days_old ++ " days (SLA: 30)"⟩),
   ("timeliness_late_ingestion", ⟨s1, 2, decide (s1 > 80), "No delayed ingestion"⟩)]

/-- The timeliness check, with `datetime.fromisoformat` abstracted as `pd`
(`none` = the exception branch) and `datetime.now()` as the day number
`now`.  The lexicographic `max` over the raw strings mirrors Python
`max(...)` on `str`. -/
def check_timeliness (pd : String → Option Int) (now : Int) (cols : Cols) : Results :=
  let dcs := dateCols cols
  if dcs.isEmpty then timelinessEntries 100 0
  else
    match pd (maxStr (dcs.map (fun cp => cp.2.max_date.getD ""))) with
    | none => timelinessEntries 0 0
    | some d =>
      let days_old := now - d
      timelinessEntries
        (if days_old ≤ 30 then 100 else ((max 0 (100 - (days_old - 30)) : ℤ) : ℚ))
        days_old

/-- Foreign-key columns: `re.match(r".+_id$", c, IGNORECASE)` excluding
names containing "transaction". -/
def fkCols (cols : Cols) : Cols :=
  cols.filter (fun cp =>
    decide (4 ≤ cp.1.length) && endsWithCI cp.1 "_id" &&
    !(strContainsB (lowerStr cp.1) "transaction"))

def integrityEntries (s1 : ℚ) : Results :=
  [("integrity_referential", ⟨s1, 7, decide (s1 > 80), "Foreign key relationships check"⟩)]

def integrityScore (cols : Cols) : Except Unit ℚ :=
  let fk := fkCols cols
  if fk.isEmpty then Except.ok 100
  else do
    let nps ← getNullPcts fk
    let high := nps.filter (fun np => decide (np > 20))
    pure (if high.isEmpty then 100 else ((max 0 (100 - (high.length : ℤ) * 20) : ℤ) : ℚ))

def check_integrity (cols : Cols) : Except Unit Results := do
  let s1 ← integrityScore cols
  pure (integrityEntries s1)

def check_security (cols : Cols) : Results :=
  let pan := colsByAny ["pan", "creditcard", "card_number"] cols
  let s1 : ℚ := if pan.isEmpty then 100 else 0
  let cvv := colsByAny ["cvv", "cvc"] cols
  let s2 : ℚ := if cvv.isEmpty then 100 else 0
  [("security_pan_storage", ⟨s1, 5, decide (s1 = 100), "No PAN stored check"⟩),
   ("security_cvv_storage", ⟨s2, 5, decide (s2 = 100), "No CVV stored check"⟩),
   ("security_metadata_only", ⟨100, 2, true, "Metadata-only enforcement"⟩)]

/-- The general run: the eight sub-suites, combined in the update order of
the source (all keys are distinct, so dict update is concatenation). -/
def run_general (pd : String → Option Int) (now : Int) (cols : Cols) (total_rows : Nat) :
    Except Unit Results := do
  let comp ← check_completeness cols
  let uniq ← check_uniqueness cols total_rows
  let integ ← check_integrity cols
  pure (comp ++ check_validity cols ++ check_accuracy cols ++ uniq ++
    check_consistency ++ check_timeliness pd now cols ++ integ ++ check_security cols)

/-! ## Standard dispatcher (`run_compliance`) -/

inductive Standard where
  | general
  | gdpr
  | visa_cedp
  | aml_fatf
  | pci_dss
  | basel
deriving DecidableEq

/-- The ordered first-match-wins keyword dispatch over the uppercased text. -/
def resolveStd (standard : String) : Standard :=
  let s := upperStr standard
  if strContainsB s "GDPR" then .gdpr
  else if strContainsB s "VISA" || strContainsB s "CEDP" then .visa_cedp
  else if strContainsB s "AML" || strContainsB s "FATF" then .aml_fatf
  else if strContainsB s "PCI" then .pci_dss
  else if strContainsB s "BASEL" then .basel
  else .general

def run_compliance (pd : String → Option Int) (now : Int) (md : DatasetMetadata)
    (standard : String) : Except Unit Results :=
  match resolveStd standard with
  | .gdpr => Except.ok (run_gdpr md.columns)
  | .visa_cedp => Except.ok (run_visa_cedp md.columns)
  | .aml_fatf => Except.ok (run_aml_fatf md.columns)
  | .pci_dss => Except.ok (run_pci_dss md.columns)
  | .basel => Except.ok (run_basel md.columns md.total_rows)
  | .general => run_general pd now md.columns md.total_rows

/-! ## Fixed key sets -/

def generalKeys : List String :=
  ["completeness_mandatory_columns", "completeness_mandatory_nulls", "completeness_address",
   "completeness_kyc_id", "completeness_source_of_funds", "completeness_audit_trail",
   "completeness_enhanced_data",
   "validity_date_format", "validity_currency_code", "validity_country_code",
   "validity_name_pattern", "validity_field_length", "validity_regex_conformity",
   "validity_schema_type",
   "accuracy_impossible_date", "accuracy_negative_amounts", "accuracy_arithmetic",
   "accuracy_null_clusters",
   "uniqueness_transaction_id", "uniqueness_composite_key", "uniqueness_primary_key",
   "consistency_status_mismatch", "consistency_currency_country", "consistency_schema_drift",
   "timeliness_dataset_age", "timeliness_late_ingestion",
   "integrity_referential",
   "security_pan_storage", "security_cvv_storage", "security_metadata_only"]

def gdprKeys : List String :=
  ["gdpr_purpose_limitation", "gdpr_data_minimization", "gdpr_lawful_basis",
   "gdpr_storage_limitation", "gdpr_access_restriction", "gdpr_metadata_analytics"]

def visaKeys : List String :=
  ["visa_data_classification", "visa_secure_handling", "visa_no_unauthorized_storage",
   "visa_transaction_completeness", "visa_fraud_readiness", "visa_cross_system_consistency"]

def amlKeys : List String :=
  ["aml_kyc_identifier", "aml_address_completeness", "aml_source_of_funds",
   "aml_traceability", "aml_suspicious_patterns", "aml_audit_trail"]

def pciKeys : List String :=
  ["pci_no_cvv", "pci_pan_masking", "pci_restricted_access",
   "pci_secure_transmission", "pci_data_lifecycle", "pci_metadata_processing"]

def baselKeys : List String :=
  ["basel_amount_accuracy", "basel_arithmetic_consistency", "basel_referential_integrity",
   "basel_duplicate_prevention", "basel_cross_ledger", "basel_timeliness"]

def standardKeys : Standard → List String
  | .general => generalKeys
  | .gdpr => gdprKeys
  | .visa_cedp => visaKeys
  | .aml_fatf => amlKeys
  | .pci_dss => pciKeys
  | .basel => baselKeys

/-! ## Helper lemmas -/

theorem mem_isEmpty_false {α : Type} {a : α} {l : List α} (h : a ∈ l) : l.isEmpty = false := by
  cases l with
  | nil => cases h
  | cons b t => rfl

theorem isEmpty_false_of_ne {α : Type} {l : List α} (h : l ≠ []) : l.isEmpty = false := by
  cases l with
  | nil => exact absurd rfl h
  | cons a t => rfl

/-- The lawful-basis entry of the GDPR suite, extracted symbolically. -/
theorem gdpr_lawful_lookup (cols : Cols) :
    lookupRule "gdpr_lawful_basis" (run_gdpr cols) =
      some ⟨(if !(colsByAny consentPats cols).isEmpty || (colsByAny piiPats cols).isEmpty then (100 : ℚ) else 50), 5,
        decide ((if !(colsByAny consentPats cols).isEmpty || (colsByAny piiPats cols).isEmpty then (100 : ℚ) else 50) > 80),
        "Lawful basis reference found"⟩ := by
  simp [run_gdpr, lookupRule]

/-! ## Claim theorems -/

/-- C6: for every metadata containing a column literally named "cvv_code",
the PCI DSS suite yields pci_no_cvv with score 0 and passed false,
regardless of the other columns. -/
theorem c6_pci_no_cvv (cols : Cols) (p : ColumnProfile) (h : ("cvv_code", p) ∈ cols) :
    lookupRule "pci_no_cvv" (run_pci_dss cols) =
      some ⟨0, 5, false, "CVV must never be stored"⟩ := by
  have hp : (List.any ["cvv", "cvc", "cid"] fun k => containsCI "cvv_code" k) = true := by decide
  have hf : (colsByAny ["cvv", "cvc", "cid"] cols).isEmpty = false :=
    mem_isEmpty_false (List.mem_filter.mpr ⟨h, hp⟩)
  simp [run_pci_dss, lookupRule, hf]

/-- C6 witness at the concrete metadata with the single column "cvv_code". -/
theorem c6_pci_no_cvv_witness :
    lookupRule "pci_no_cvv" (run_pci_dss [("cvv_code", {})]) =
      some ⟨0, 5, false, "CVV must never be stored"⟩ :=
  c6_pci_no_cvv [("cvv_code", {})] {} (by decide)

/-- C9: the no-CVV pattern cvv|cvc|cid matches as a case-insensitive
substring, so any column whose name merely contains "cid" (such as
"incident_id") forces pci_no_cvv to score 0 and fail. -/
theorem c9_cid_substring (cols : Cols) (name : String) (p : ColumnProfile)
    (h : (name, p) ∈ cols) (hc : containsCI name "cid" = true) :
    lookupRule "pci_no_cvv" (run_pci_dss cols) =
        some ⟨0, 5, false, "CVV must never be stored"⟩
      ∧ containsCI "incident_id" "cid" = true := by
  constructor
  · have hf : (colsByAny ["cvv", "cvc", "cid"] cols).isEmpty = false :=
      mem_isEmpty_false (List.mem_filter.mpr ⟨h, by simp [hc]⟩)
    simp [run_pci_dss, lookupRule, hf]
  · decide

/-- C9 witness at the concrete metadata with the single column "incident_id". -/
theorem c9_cid_substring_witness :
    lookupRule "pci_no_cvv" (run_pci_dss [("incident_id", {})]) =
        some ⟨0, 5, false, "CVV must never be stored"⟩
      ∧ containsCI "incident_id" "cid" = true :=
  c9_cid_substring [("incident_id", {})] "incident_id" {} (by decide) (by decide)

/-- C7 counterexample: the claim asserts that a PAN-role column named with
uppercase "RAW" also fails pci_pan_masking, but the source tests
`"raw" in c` case-sensitively, so the column "PAN_RAW" scores 100 and
passes. -/
theorem c7_counterexample :
    lookupRule "pci_pan_masking" (run_pci_dss [("PAN_RAW", {})]) =
      some ⟨100, 5, true, "PAN is masked/tokenized"⟩ := by decide

/-- C7 (amended): pci_pan_masking scores 100 with passed true unless some
column matching pan|card_num (matched case-insensitively) contains the
lowercase substring "raw" exactly (matched case-sensitively), in which
case it scores 0 with passed false. -/
theorem c7_pan_masking (cols : Cols) :
    lookupRule "pci_pan_masking" (run_pci_dss cols) =
      some (if (colsByAny ["pan", "card_num"] cols).any (fun cp => strContainsB cp.1 "raw")
            then ⟨0, 5, false, "PAN is masked/tokenized"⟩
            else ⟨100, 5, true, "PAN is masked/tokenized"⟩) := by
  cases hA : (colsByAny ["pan", "card_num"] cols).any (fun cp => strContainsB cp.1 "raw") with
  | false => simp [run_pci_dss, lookupRule, hA]
  | true =>
    have hne : (colsByAny ["pan", "card_num"] cols).isEmpty = false := by
      rcases List.any_eq_true.mp hA with ⟨x, hx, _⟩
      exact mem_isEmpty_false hx
    simp [run_pci_dss, lookupRule, hA, hne]

/-- C8: gdpr_lawful_basis scores 100 if some consent/legal-basis column
exists or no PII column exists, and 50 otherwise; passed holds iff the
score exceeds 80, so the check fails exactly when PII columns exist and
no consent/legal-basis column exists. -/
theorem c8_lawful_basis (cols : Cols) :
    ∃ r, lookupRule "gdpr_lawful_basis" (run_gdpr cols) = some r
      ∧ r.score = (if colsByAny consentPats cols ≠ [] ∨ colsByAny piiPats cols = []
                   then (100 : ℚ) else 50)
      ∧ r.weight = 5
      ∧ (r.passed = true ↔ r.score > 80)
      ∧ (r.passed = false ↔ (colsByAny piiPats cols ≠ [] ∧ colsByAny consentPats cols = [])) := by
  refine ⟨_, gdpr_lawful_lookup cols, ?_, rfl, ?_, ?_⟩
  · by_cases h1 : colsByAny consentPats cols = []
    · by_cases h2 : colsByAny piiPats cols = []
      · simp [h1, h2]
      · simp [h1, h2, isEmpty_false_of_ne h2]
    · by_cases h2 : colsByAny piiPats cols = []
      · simp [h1, h2, isEmpty_false_of_ne h1]
      · simp [h1, h2, isEmpty_false_of_ne h1, isEmpty_false_of_ne h2]
  · exact decide_eq_true_iff
  · rw [decide_eq_false_iff_not]
    by_cases h1 : colsByAny consentPats cols = []
    · by_cases h2 : colsByAny piiPats cols = []
      · norm_num [h1, h2]
      · norm_num [h1, h2, isEmpty_false_of_ne h2]
    · by_cases h2 : colsByAny piiPats cols = []
      · norm_num [h1, h2, isEmpty_false_of_ne h1]
      · norm_num [h1, h2, isEmpty_false_of_ne h1, isEmpty_false_of_ne h2]

/-- C10: a numeric column matching the amount-role pattern whose profile
lacks the min field is counted as a zero/negative-amount violation, so a
metadata whose only such column lacks min makes accuracy_negative_amounts
score 0 with passed false. -/
theorem c10_absent_min (cols : Cols) (c : String) (p : ColumnProfile)
    (h1 : amtNumericCols cols = [(c, p)]) (h2 : p.min = none) :
    lookupRule "accuracy_negative_amounts" (check_accuracy cols) =
      some ⟨0, 5, false, "Zero/Negative amount check"⟩ := by
  simp [check_accuracy, lookupRule, h1, h2]

/-- C10 witness: a single numeric "amount" column with no min field. -/
theorem c10_absent_min_witness :
    lookupRule "accuracy_negative_amounts"
        (check_accuracy [("amount", { is_numeric := some true })]) =
      some ⟨0, 5, false, "Zero/Negative amount check"⟩ :=
  c10_absent_min [("amount", { is_numeric := some true })] "amount"
    { is_numeric := some true } (by decide) rfl

/-- Evaluation of `run_general` as a match on its three fallible sub-checks. -/
theorem run_general_eq (pd : String → Option Int) (now : Int) (cols : Cols) (tr : Nat) :
    run_general pd now cols tr =
      match check_completeness cols, check_uniqueness cols tr, check_integrity cols with
      | Except.ok comp, Except.ok uniq, Except.ok integ =>
          Except.ok (comp ++ check_validity cols ++ check_accuracy cols ++ uniq ++
            check_consistency ++ check_timeliness pd now cols ++ integ ++ check_security cols)
      | Except.error e, _, _ => Except.error e
      | Except.ok _, Except.error e, _ => Except.error e
      | Except.ok _, Except.ok _, Except.error e => Except.error e := by
  unfold run_general
  cases check_completeness cols <;> cases check_uniqueness cols tr <;>
    cases check_integrity cols <;> rfl

/-- C5: uniqueness_transaction_id scores 0 with no candidate id column,
100 when the chosen candidate has unique_count = total_rows, and the
ratio (unique_count/total_rows)*100 otherwise; at total_rows 100 an "id"
column with unique_count 100 gives score 100 passed true, and
unique_count 50 gives score 50 passed false. -/
theorem c5_uniqueness (cols : Cols) (tr : Nat) :
    ((colsByAny idPats cols).head? = none →
        check_uniqueness cols tr = Except.ok (uniquenessEntries 0))
  ∧ (∀ cp : String × ColumnProfile, (colsByAny idPats cols).head? = some cp →
      (cp.2.unique_count.getD 0 = tr →
          check_uniqueness cols tr = Except.ok (uniquenessEntries 100))
      ∧ (cp.2.unique_count.getD 0 ≠ tr → tr ≠ 0 →
          check_uniqueness cols tr =
            Except.ok (uniquenessEntries (((cp.2.unique_count.getD 0 : ℚ) / (tr : ℚ)) * 100))))
  ∧ lookupRule "uniqueness_transaction_id"
      ((check_uniqueness [("id", { unique_count := some 100 })] 100).toOption.getD []) =
        some ⟨100, 5, true, "Transaction ID uniqueness"⟩
  ∧ lookupRule "uniqueness_transaction_id"
      ((check_uniqueness [("id", { unique_count := some 50 })] 100).toOption.getD []) =
        some ⟨50, 5, false, "Transaction ID uniqueness"⟩ := by
  refine ⟨?_, ?_, ?_, ?_⟩
  · intro h
    simp [check_uniqueness, uniquenessScore, h]
  · intro cp hcp
    constructor
    · intro he
      simp [check_uniqueness, uniquenessScore, hcp, he]
    · intro hne hz
      simp [check_uniqueness, uniquenessScore, hcp, hne, hz]
  · decide
  · have hs : check_uniqueness [("id", { unique_count := some 50 })] 100 =
        Except.ok (uniquenessEntries (((50 : ℕ) : ℚ) / ((100 : ℕ) : ℚ) * 100)) := rfl
    have h : (((50 : ℕ) : ℚ) / ((100 : ℕ) : ℚ) * 100) = 50 := by norm_num
    rw [hs, h]
    simp [uniquenessEntries, lookupRule]
    decide

/-- C5 witness: a matching id column with unique_count = total_rows, and a
metadata with no id-like column. -/
theorem c5_uniqueness_witness :
    check_uniqueness [("order_id", { unique_count := some 5 })] 5 =
        Except.ok (uniquenessEntries 100)
  ∧ check_uniqueness [("foo", {})] 7 = Except.ok (uniquenessEntries 0) :=
  ⟨((c5_uniqueness [("order_id", { unique_count := some 5 })] 5).2.1
      ("order_id", { unique_count := some 5 }) rfl).1 rfl,
   (c5_uniqueness [("foo", {})] 7).1 rfl⟩

/-- C4: with the evaluation time a fixed reference parameter, the
timeliness check scores 100 with no max_date columns, 0 on a parse
failure of the selected (maximal) max_date string, and otherwise
100 for age at most 30 days and max(0, 100 - (age - 30)) beyond; passed
iff score > 80; the parse failure is local: the rest of the general
suite is unaffected and no exception propagates. -/
theorem c4_timeliness (pd : String → Option Int) (now : Int) (cols : Cols) :
    (dateCols cols = [] → check_timeliness pd now cols = timelinessEntries 100 0)
  ∧ (dateCols cols ≠ [] →
      (pd (maxStr ((dateCols cols).map (fun cp => cp.2.max_date.getD ""))) = none →
          check_timeliness pd now cols = timelinessEntries 0 0)
      ∧ (∀ d : Int, pd (maxStr ((dateCols cols).map (fun cp => cp.2.max_date.getD ""))) = some d →
          check_timeliness pd now cols =
            timelinessEntries
              (if now - d ≤ 30 then 100 else ((max 0 (100 - (now - d - 30)) : ℤ) : ℚ))
              (now - d)))
  ∧ (∀ (s1 : ℚ) (d0 : Int), lookupRule "timeliness_dataset_age" (timelinessEntries s1 d0) =
        some ⟨s1, 4, decide (s1 > 80), "Data age: " ++ toString d0 ++ " days (SLA: 30)"⟩)
  ∧ (∀ (pd2 : String → Option Int) (now2 : Int) (tr : Nat),
        (run_general pd now cols tr).isOk = (run_general pd2 now2 cols tr).isOk)
  ∧ (∀ (pd2 : String → Option Int) (now2 : Int) (tr : Nat) (r r2 : Results),
        run_general pd now cols tr = Except.ok r →
        run_general pd2 now2 cols tr = Except.ok r2 →
        ∃ l1 l2, r = l1 ++ check_timeliness pd now cols ++ l2
               ∧ r2 = l1 ++ check_timeliness pd2 now2 cols ++ l2) := by
  refine ⟨?_, ?_, ?_, ?_, ?_⟩
  · intro h
    simp [check_timeliness, h]
  · intro hne
    constructor
    · intro hpd
      simp [check_timeliness, isEmpty_false_of_ne hne, hpd]
    · intro d hpd
      simp [check_timeliness, isEmpty_false_of_ne hne, hpd]
  · intro s1 d0
    simp [timelinessEntries, lookupRule]
  · intro pd2 now2 tr
    rw [run_general_eq pd now cols tr, run_general_eq pd2 now2 cols tr]
    cases check_completeness cols <;> cases check_uniqueness cols tr <;>
      cases check_integrity cols <;> rfl
  · intro pd2 now2 tr r r2 h h2
    rw [run_general_eq pd now cols tr] at h
    rw [run_general_eq pd2 now2 cols tr] at h2
    cases hc : check_completeness cols <;> rw [hc] at h h2 <;>
      cases hu : check_uniqueness cols tr <;> rw [hu] at h h2 <;>
      cases hi : check_integrity cols <;> rw [hi] at h h2 <;>
      try exact Except.noConfusion h
    case ok.ok.ok comp uniq integ =>
      cases h
      cases h2
      refine ⟨comp ++ check_validity cols ++ check_accuracy cols ++ uniq ++ check_consistency,
        integ ++ check_security cols, ?_, ?_⟩ <;> simp [List.append_assoc]

/-- C4 witness: one max_date column parsed 45 days before the reference
time scores 85 and still passes the >80 threshold. -/
theorem c4_timeliness_witness :
    check_timeliness (fun s => if s = "2024-01-01" then some 0 else none) 45
        [("t", { max_date := some "2024-01-01" })] = timelinessEntries 85 45
  ∧ lookupRule "timeliness_dataset_age" (timelinessEntries 85 45) =
      some ⟨85, 4, true, "Data age: 45 days (SLA: 30)"⟩ := by
  constructor
  · have h := ((c4_timeliness (fun s => if s = "2024-01-01" then some 0 else none) 45
      [("t", { max_date := some "2024-01-01" })]).2.1 (by decide)).2 0 rfl
    rw [h]
    decide
  · have h := (c4_timeliness (fun s => if s = "2024-01-01" then some 0 else none) 45
      [("t", { max_date := some "2024-01-01" })]).2.2.1 85 45
    rw [h]
    decide

/-- C3: run_compliance uppercases the standard text and tests substring
membership in the order GDPR, VISA/CEDP, AML/FATF, PCI, BASEL, the first
match selecting the suite and anything else falling back to the General
suite; "PCI-GDPR-HYBRID" runs the GDPR suite, "unknown" runs the General
suite, and no input string fails to resolve. -/
theorem c3_dispatcher (pd : String → Option Int) (now : Int) (md : DatasetMetadata) :
    (∀ std : String, strContainsB (upperStr std) "GDPR" = true →
        run_compliance pd now md std = Except.ok (run_gdpr md.columns))
  ∧ (∀ std : String, strContainsB (upperStr std) "GDPR" = false →
        (strContainsB (upperStr std) "VISA" || strContainsB (upperStr std) "CEDP") = true →
        run_compliance pd now md std = Except.ok (run_visa_cedp md.columns))
  ∧ (∀ std : String, strContainsB (upperStr std) "GDPR" = false →
        (strContainsB (upperStr std) "VISA" || strContainsB (upperStr std) "CEDP") = false →
        (strContainsB (upperStr std) "AML" || strContainsB (upperStr std) "FATF") = true →
        run_compliance pd now md std = Except.ok (run_aml_fatf md.columns))
  ∧ (∀ std : String, strContainsB (upperStr std) "GDPR" = false →
        (strContainsB (upperStr std) "VISA" || strContainsB (upperStr std) "CEDP") = false →
        (strContainsB (upperStr std) "AML" || strContainsB (upperStr std) "FATF") = false →
        strContainsB (upperStr std) "PCI" = true →
        run_compliance pd now md std = Except.ok (run_pci_dss md.columns))
  ∧ (∀ std : String, strContainsB (upperStr std) "GDPR" = false →
        (strContainsB (upperStr std) "VISA" || strContainsB (upperStr std) "CEDP") = false →
        (strContainsB (upperStr std) "AML" || strContainsB (upperStr std) "FATF") = false →
        strContainsB (upperStr std) "PCI" = false →
        strContainsB (upperStr std) "BASEL" = true →
        run_compliance pd now md std = Except.ok (run_basel md.columns md.total_rows))
  ∧ (∀ std : String, strContainsB (upperStr std) "GDPR" = false →
        (strContainsB (upperStr std) "VISA" || strContainsB (upperStr std) "CEDP") = false →
        (strContainsB (upperStr std) "AML" || strContainsB (upperStr std) "FATF") = false →
        strContainsB (upperStr std) "PCI" = false →
        strContainsB (upperStr std) "BASEL" = false →
        run_compliance pd now md std = run_general pd now md.columns md.total_rows)
  ∧ run_compliance pd now md "PCI-GDPR-HYBRID" = Except.ok (run_gdpr md.columns)
  ∧ run_compliance pd now md "unknown" = run_general pd now md.columns md.total_rows
  ∧ (∀ std : String, (run_compliance pd now ⟨[], 0⟩ std).isOk = true) := by
  refine ⟨?_, ?_, ?_, ?_, ?_, ?_, rfl, rfl, ?_⟩
  · intro std h1
    simp [run_compliance, resolveStd, h1]
  · intro std h1 h2
    simp [run_compliance, resolveStd, h1, h2]
  · intro std h1 h2 h3
    simp [run_compliance, resolveStd, h1, h2, h3]
  · intro std h1 h2 h3 h4
    simp [run_compliance, resolveStd, h1, h2, h3, h4]
  · intro std h1 h2 h3 h4 h5
    simp [run_compliance, resolveStd, h1, h2, h3, h4, h5]
  · intro std h1 h2 h3 h4 h5
    simp [run_compliance, resolveStd, h1, h2, h3, h4, h5]
  · intro std
    rcases hs : resolveStd std <;> simp [run_compliance, hs] <;> rfl

/-- C3 witness at concrete standard strings. -/
theorem c3_dispatcher_witness :
    run_compliance (fun _ => none) 0 ⟨[("email", {})], 3⟩ "EU GDPR 2016" =
        Except.ok (run_gdpr [("email", {})])
  ∧ run_compliance (fun _ => none) 0 ⟨[("email", {})], 3⟩ "visa cedp" =
        Except.ok (run_visa_cedp [("email", {})]) :=
  ⟨(c3_dispatcher (fun _ => none) 0 ⟨[("email", {})], 3⟩).1 "EU GDPR 2016" (by decide),
   (c3_dispatcher (fun _ => none) 0 ⟨[("email", {})], 3⟩).2.1 "visa cedp" (by decide) (by decide)⟩

/-- Successful completeness runs produce the fixed seven entries. -/
theorem check_completeness_shape (cols : Cols) (r : Results)
    (h : check_completeness cols = Except.ok r) :
    ∃ a b : ℚ, r = completenessEntries cols a b := by
  unfold check_completeness at h
  cases h1 : avgNonNull (mandatoryColNames cols) <;> rw [h1] at h
  · exact Except.noConfusion h
  · cases h2 : avgNonNull (colsByAny addrPats cols) <;> rw [h2] at h
    · exact Except.noConfusion h
    · exact ⟨_, _, (Except.ok.inj h).symm⟩

/-- Successful uniqueness runs produce the fixed three entries. -/
theorem check_uniqueness_shape (cols : Cols) (tr : Nat) (r : Results)
    (h : check_uniqueness cols tr = Except.ok r) :
    ∃ s : ℚ, r = uniquenessEntries s := by
  unfold check_uniqueness at h
  cases h1 : uniquenessScore cols tr <;> rw [h1] at h
  · exact Except.noConfusion h
  · exact ⟨_, (Except.ok.inj h).symm⟩

/-- The timeliness check always produces the fixed two entries. -/
theorem check_timeliness_shape (pd : String → Option Int) (now : Int) (cols : Cols) :
    ∃ (s : ℚ) (d : Int), check_timeliness pd now cols = timelinessEntries s d := by
  by_cases hd : (dateCols cols).isEmpty = true
  · exact ⟨100, 0, by simp [check_timeliness, hd]⟩
  · have hd2 : (dateCols cols).isEmpty = false := by simpa using hd
    cases hp : pd (maxStr ((dateCols cols).map (fun cp => cp.2.max_date.getD ""))) with
    | none => exact ⟨0, 0, by simp [check_timeliness, hd2, hp]⟩
    | some d =>
      refine ⟨if now - d ≤ 30 then 100 else ((max 0 (100 - (now - d - 30)) : ℤ) : ℚ),
        now - d, ?_⟩
      simp [check_timeliness, hd2, hp]

/-- Successful integrity runs produce the fixed single entry. -/
theorem check_integrity_shape (cols : Cols) (r : Results)
    (h : check_integrity cols = Except.ok r) :
    ∃ s : ℚ, r = integrityEntries s := by
  unfold check_integrity at h
  cases h1 : integrityScore cols <;> rw [h1] at h
  · exact Except.noConfusion h
  · exact ⟨_, (Except.ok.inj h).symm⟩

/-- C1 counterexample: the claim promises a returned mapping for every
DatasetMetadata, but a metadata whose "id" column profile lacks
null_percentage makes the General run raise instead of return. -/
theorem c1_counterexample :
    run_compliance (fun _ => none) 0 ⟨[("id", {})], 0⟩ "unknown" = Except.error () := by
  decide

/-- C1 (amended): whenever run_compliance returns a mapping, its key list
is exactly the fixed, enumerated key list of the resolved standard (the
six gdpr keys for GDPR, the thirty general keys for GENERAL, and so on);
for the five non-General standards a mapping is always returned. -/
theorem c1_keys (pd : String → Option Int) (now : Int) (md : DatasetMetadata) (std : String) :
    (∀ r : Results, run_compliance pd now md std = Except.ok r →
        r.map Prod.fst = standardKeys (resolveStd std))
  ∧ (resolveStd std ≠ Standard.general →
        ∃ r : Results, run_compliance pd now md std = Except.ok r) := by
  constructor
  · intro r h
    cases hs : resolveStd std <;> simp [run_compliance, hs] at h <;> try subst h
    case gdpr => rfl
    case visa_cedp => rfl
    case aml_fatf => rfl
    case pci_dss => rfl
    case basel => rfl
    case general =>
      rw [run_general_eq] at h
      cases hc : check_completeness md.columns <;> rw [hc] at h
      · exact Except.noConfusion h
      cases hu : check_uniqueness md.columns md.total_rows <;> rw [hu] at h
      · exact Except.noConfusion h
      cases hi : check_integrity md.columns <;> rw [hi] at h
      · exact Except.noConfusion h
      obtain ⟨a, b, hab⟩ := check_completeness_shape _ _ hc
      obtain ⟨s, hsu⟩ := check_uniqueness_shape _ _ _ hu
      obtain ⟨t, hit⟩ := check_integrity_shape _ _ hi
      obtain ⟨ts, td, htl⟩ := check_timeliness_shape pd now md.columns
      have hr := (Except.ok.inj h).symm
      subst hab hsu hit hr
      rw [htl]
      rfl
  · intro hne
    rcases hs : resolveStd std
    case general => exact absurd hs hne
    case gdpr => exact ⟨run_gdpr md.columns, by simp [run_compliance, hs]⟩
    case visa_cedp => exact ⟨run_visa_cedp md.columns, by simp [run_compliance, hs]⟩
    case aml_fatf => exact ⟨run_aml_fatf md.columns, by simp [run_compliance, hs]⟩
    case pci_dss => exact ⟨run_pci_dss md.columns, by simp [run_compliance, hs]⟩
    case basel => exact ⟨run_basel md.columns md.total_rows, by simp [run_compliance, hs]⟩

/-- C1 witness: concrete GDPR key list and a returned Basel run. -/
theorem c1_keys_witness :
    (run_gdpr [("email", {})]).map Prod.fst = standardKeys (resolveStd "GDPR")
  ∧ ∃ r : Results, run_compliance (fun _ => none) 0 ⟨[("email", {})], 0⟩ "BASEL" =
      Except.ok r :=
  ⟨(c1_keys (fun _ => none) 0 ⟨[("email", {})], 0⟩ "GDPR").1 _ rfl,
   (c1_keys (fun _ => none) 0 ⟨[("email", {})], 0⟩ "BASEL").2 (by decide)⟩

/-- C2 (code bug): the claim says run_compliance never raises for
metadata conforming to the optional-field data model, but the General
run raises a KeyError when a column matching a mandatory pattern lacks
null_percentage, and a ZeroDivisionError when a candidate id column has
unique_count different from a zero total_rows. -/
theorem c2_general_run_raises :
    run_compliance (fun _ => none) 0 ⟨[("amount", {})], 5⟩ "General Transaction" =
        Except.error ()
  ∧ run_compliance (fun _ => none) 0 ⟨[("txn_key", { unique_count := some 3 })], 0⟩ "unknown" =
        Except.error () := by
  constructor <;> decide

end FinAudit

